import Mathlib

/-!
Verification of the file-search tool's indexing-and-query pipeline
(`src/tools/search_tool.rs`).

The Rust source is shallowly embedded as executable Lean definitions:

* `is_text_file` embeds the content classifier (extension denylist,
  NUL-byte scan, control-character ratio, UTF-8 / ASCII-ratio check).
  File bytes are `List Nat`; the `f32` ratio comparisons
  `count / sample_size > 0.3` and `> 0.8` are modelled by the exact
  integer cross-multiplications `10 * count > 3 * size` and
  `5 * count > 4 * size`: with denominators bounded by the 8192-byte
  sample no fraction `count / size` falls between the exact threshold
  and its nearest-`f32` rounding, so the two comparisons agree.
* `utf8Valid` embeds `std::str::from_utf8`'s RFC 3629 byte-level
  validation (overlong forms, surrogates and values above U+10FFFF are
  rejected).
* `Node` is an abstract filesystem tree; failure constructors stand for
  `fs::read_dir` errors (`badDir`) and per-entry iterator errors
  (`badEntry`), `Option`-valued fields for fallible `fs::read` /
  `fs::read_to_string` calls.
* `processEntry` / `processList` embed the recursive `process_directory`
  walk, threading the found/indexed/skipped counters and the sequence of
  documents handed to the index writer.
* `searchPipeline` embeds the `search` request handler in its exact
  order of effects. The tantivy library is external to the repository:
  query parsing is an abstract parameter, document relevance scores are
  an abstract oracle into exact rationals, and `topDocsWithLimit`
  models the documented contract of the `TopDocs::with_limit` collector
  (highest scores first, at most `limit` results). The pipeline also
  records an event trace (index creation, writer creation, document
  additions, commit) so that ordering claims about index lifetime are
  statable.
-/

/-- A continuation byte of a multi-byte UTF-8 sequence: `0x80..=0xBF`. -/
def utf8Cont (b : Nat) : Bool := 0x80 ≤ b && b ≤ 0xBF

/-- RFC 3629 UTF-8 validity of a byte sequence, as enforced by Rust's
`std::str::from_utf8`: ASCII bytes stand alone; `0xC2..=0xDF` lead
two-byte forms; `0xE0`, `0xE1..=0xEC`, `0xED`, `0xEE..=0xEF` lead
three-byte forms with the usual restricted second byte (no overlongs,
no surrogates); `0xF0`, `0xF1..=0xF3`, `0xF4` lead four-byte forms
(no overlongs, nothing above U+10FFFF). -/
def utf8Valid : List Nat → Bool
  | [] => true
  | b :: rest =>
    if b ≤ 0x7F then utf8Valid rest
    else if 0xC2 ≤ b && b ≤ 0xDF then
      match rest with
      | b1 :: r => utf8Cont b1 && utf8Valid r
      | [] => false
    else if b == 0xE0 then
      match rest with
      | b1 :: b2 :: r => (0xA0 ≤ b1 && b1 ≤ 0xBF) && utf8Cont b2 && utf8Valid r
      | _ => false
    else if (0xE1 ≤ b && b ≤ 0xEC) || b == 0xEE || b == 0xEF then
      match rest with
      | b1 :: b2 :: r => utf8Cont b1 && utf8Cont b2 && utf8Valid r
      | _ => false
    else if b == 0xED then
      match rest with
      | b1 :: b2 :: r => (0x80 ≤ b1 && b1 ≤ 0x9F) && utf8Cont b2 && utf8Valid r
      | _ => false
    else if b == 0xF0 then
      match rest with
      | b1 :: b2 :: b3 :: r =>
          (0x90 ≤ b1 && b1 ≤ 0xBF) && utf8Cont b2 && utf8Cont b3 && utf8Valid r
      | _ => false
    else if 0xF1 ≤ b && b ≤ 0xF3 then
      match rest with
      | b1 :: b2 :: b3 :: r => utf8Cont b1 && utf8Cont b2 && utf8Cont b3 && utf8Valid r
      | _ => false
    else if b == 0xF4 then
      match rest with
      | b1 :: b2 :: b3 :: r =>
          (0x80 ≤ b1 && b1 ≤ 0x8F) && utf8Cont b2 && utf8Cont b3 && utf8Valid r
      | _ => false
    else false

/-- The source's `binary_extensions` denylist, verbatim and in order. -/
def binary_extensions : List String :=
  ["exe", "dll", "so", "dylib", "bin", "obj", "o", "a", "lib", "png", "jpg", "jpeg",
   "gif", "bmp", "tiff", "webp", "ico", "mp3", "mp4", "wav", "ogg", "flac", "avi", "mov",
   "mkv", "zip", "gz", "tar", "7z", "rar", "jar", "war", "pdf", "doc", "docx", "xls",
   "xlsx", "ppt", "pptx", "db", "sqlite", "mdb", "iso", "dmg", "class"]

/-- ASCII lowercasing of one character; on the ASCII extensions compared
against the denylist this agrees with Rust's `str::to_lowercase`. -/
def toLowerAsciiChar (c : Char) : Char :=
  if c.toNat ≥ 65 ∧ c.toNat ≤ 90 then Char.ofNat (c.toNat + 32) else c

/-- ASCII lowercasing of a string (models `ext.to_string_lossy().to_lowercase()`
for the ASCII-only denylist comparison). -/
def toLowerAscii (s : String) : String := String.mk (s.data.map toLowerAsciiChar)

/-- Step 1 of `is_text_file`: the path's extension, lowercased, is found in
the binary-extension denylist (`None` when the path has no extension). -/
def extDenylisted : Option String → Bool
  | some e => binary_extensions.contains (toLowerAscii e)
  | none => false

/-- The sampled prefix of the file's bytes: `&bytes[..min(len, 8192)]`. -/
def sampleOf (bytes : List Nat) : List Nat := bytes.take 8192

/-- Number of sampled control characters below 0x20, excluding tab (9),
line feed (10) and carriage return (13). -/
def controlCount (s : List Nat) : Nat :=
  (s.filter (fun b => decide (b < 32) && !(b == 9) && !(b == 10) && !(b == 13))).length

/-- Number of sampled bytes in the ASCII range `0..=127`. -/
def asciiCount (s : List Nat) : Nat :=
  (s.filter (fun b => decide (b ≤ 127))).length

/-- The content classifier `is_text_file`. `readRes` is the outcome of
`fs::read(path)`: `none` on a read error, `some bytes` on success. Returns
`true` exactly when the file is classified as text. -/
def is_text_file (ext : Option String) (readRes : Option (List Nat)) : Bool :=
  if extDenylisted ext then false
  else
    match readRes with
    | some bytes =>
      if bytes.isEmpty then false
      else
        let sample := sampleOf bytes
        if sample.any (fun b => b == 0) then false
        else if 10 * controlCount sample > 3 * sample.length then false
        else utf8Valid sample || decide (5 * asciiCount sample > 4 * sample.length)
    | none => false

/-- Models Rust's `s.trim().is_empty()`: a string is blank exactly when
every character is whitespace (the walk and the keyword check only ever
test emptiness after trimming, so the trim itself need not be modelled). -/
def trimIsEmpty (s : String) : Bool := s.data.all (fun c => c.isWhitespace)

/-- A document handed to the tantivy index writer: the stored `path` field
and the `content` field. -/
structure Doc where
  path : String
  content : String
deriving DecidableEq, Repr

/-- The walk's mutable state: the documents added to the index writer (in
addition order) and the `indexed` / `found` / `skipped` counters. -/
structure WalkState where
  docs : List Doc
  indexed : Nat
  found : Nat
  skipped : Nat
deriving DecidableEq, Repr

mutual
/-- An abstract filesystem node, as `process_directory` can observe it.
`file name ext bytes content` carries the outcomes of `fs::read`
(`bytes`, `none` = error) and `fs::read_to_string` (`content`, `none` =
error). `dir` is a directory whose `fs::read_dir` succeeds with the given
listing; `badDir` one whose `fs::read_dir` fails with the given message.
`badEntry` is a directory entry whose `Result<DirEntry>` is an error.
`other` is a path that is neither a directory nor a regular file. -/
inductive Node : Type where
  | file : String → Option String → Option (List Nat) → Option String → Node
  | dir : String → NodeList → Node
  | badDir : String → String → Node
  | badEntry : String → Node
  | other : String → Node

/-- A directory listing, in iteration order. -/
inductive NodeList : Type where
  | nil : NodeList
  | cons : Node → NodeList → NodeList
end

mutual
/-- One iteration of the `for entry in fs::read_dir(dir_path)` loop of
`process_directory`, on the entry `n` of the directory at `dirPath`.
Returns the updated state and `some errorMessage` when the loop's `?`
operator propagates an error. -/
def processEntry (dirPath : String) (n : Node) (st : WalkState) : WalkState × Option String :=
  match n with
  | .badEntry msg => (st, some ("Entry read error: " ++ msg))
  | .dir name entries => processList (dirPath ++ "/" ++ name) entries st
  | .badDir name msg =>
      (st, some ("Directory read error '" ++ dirPath ++ "/" ++ name ++ "': " ++ msg))
  | .other _ => (st, none)
  | .file name ext bytes content =>
      let path := dirPath ++ "/" ++ name
      let st1 : WalkState :=
        { docs := st.docs, indexed := st.indexed, found := st.found + 1,
          skipped := st.skipped }
      if is_text_file ext bytes then
        match content with
        | some c =>
          if trimIsEmpty c then
            ({ docs := st1.docs, indexed := st1.indexed, found := st1.found,
               skipped := st1.skipped + 1 }, none)
          else
            ({ docs := st1.docs ++ [⟨path, c⟩], indexed := st1.indexed + 1,
               found := st1.found, skipped := st1.skipped }, none)
        | none =>
            ({ docs := st1.docs, indexed := st1.indexed, found := st1.found,
               skipped := st1.skipped + 1 }, none)
      else
        ({ docs := st1.docs, indexed := st1.indexed, found := st1.found,
           skipped := st1.skipped + 1 }, none)

/-- The whole entry loop of `process_directory` over a directory listing:
entries are processed in order and the first propagated error stops the
loop, preserving the state reached so far. -/
def processList (dirPath : String) (ns : NodeList) (st : WalkState) : WalkState × Option String :=
  match ns with
  | .nil => (st, none)
  | .cons n rest =>
      match processEntry dirPath n st with
      | (st2, none) => processList dirPath rest st2
      | (st2, some e) => (st2, some e)
end

/-- `Path::is_dir` on the root node: directories whose listing succeeds and
directories whose `fs::read_dir` later fails are both directories. -/
def rootIsDir : Node → Bool
  | .dir _ _ => true
  | .badDir _ _ => true
  | _ => false

/-- The top-level `process_directory(dir_path, ...)` call of `search`,
starting from fresh counters. -/
def walkRoot (dirPath : String) (root : Node) : WalkState × Option String :=
  match root with
  | .dir _ entries => processList dirPath entries ⟨[], 0, 0, 0⟩
  | .badDir _ msg =>
      (⟨[], 0, 0, 0⟩, some ("Directory read error '" ++ dirPath ++ "': " ++ msg))
  | _ => (⟨[], 0, 0, 0⟩, some ("Directory read error '" ++ dirPath ++ "': not a directory"))

/-- Index-lifetime events of one `search` request, in emission order. -/
inductive Event : Type where
  | indexCreated : Event
  | writerCreated : Event
  | docAdded : String → Event
  | committed : Event
deriving DecidableEq, Repr

/-- Descending-score order on scored documents (ties left in list order). -/
def scoreGE (p q : Rat × Doc) : Prop := q.1 ≤ p.1

instance : DecidableRel scoreGE := fun p q => inferInstanceAs (Decidable (q.1 ≤ p.1))

instance : IsTotal (Rat × Doc) scoreGE := ⟨fun p q => le_total q.1 p.1⟩

instance : IsTrans (Rat × Doc) scoreGE := ⟨fun _ _ _ h1 h2 => le_trans h2 h1⟩

/-- The documented contract of tantivy's `TopDocs::with_limit(limit)`
collector (the library is external to the repository): of the scored
matching documents, the `limit` highest scores, in descending order. -/
def topDocsWithLimit (limit : Nat) (scored : List (Rat × Doc)) : List (Rat × Doc) :=
  (List.insertionSort scoreGE scored).take limit

/-- Rendering of a relevance score with Rust's `{:.2}` format: the score
times 100, rounded to the nearest integer (halves up, written as a floor
division so the definition evaluates), printed with two decimals. -/
def fmt2 (q : Rat) : String :=
  let c : Int := Int.fdiv (200 * q.num + (q.den : Int)) (2 * (q.den : Int))
  let sign := if c < 0 then "-" else ""
  let a := c.natAbs
  sign ++ toString (a / 100) ++ "." ++ (if a % 100 < 10 then "0" else "") ++ toString (a % 100)

/-- Rust's `{:?}` rendering of the extension denylist array. -/
def debugList (l : List String) : String :=
  "[" ++ String.intercalate ", " (l.map (fun s => "\"" ++ s ++ "\"")) ++ "]"

/-- The informational result returned when `indexed_files_count == 0`. -/
def noIndexMessage (directory : String) (found skipped : Nat) : String :=
  "No text files suitable for indexing were found in the specified directory '"
    ++ directory ++ "'.\nFound files: " ++ toString found ++ ", Skipped: "
    ++ toString skipped ++ "\nSupported extensions: " ++ debugList binary_extensions

/-- The success message returned when the query matches no document. -/
def noResultsMessage (keyword : String) (indexed : Nat) : String :=
  "No search results for keyword '" ++ keyword ++ "'. Number of indexed files: "
    ++ toString indexed

/-- One line of the hit report: `Hit: {path} (Score: {score:.2})\n`. -/
def hitLine (p : Rat × Doc) : String :=
  "Hit: " ++ p.2.path ++ " (Score: " ++ fmt2 p.1 ++ ")\n"

/-- The outcome of one `search` request: the returned
`Result<String, String>` and the emitted index-lifetime event trace. -/
structure PipelineOut where
  result : Except String String
  events : List Event
deriving Repr

/-- The `search` request handler, step for step in source order:
schema building and `Index::create_in_ram` (the `indexCreated` event);
writer creation (the `writerCreated` event; in-RAM writer allocation is
modelled as succeeding); the `is_dir` validation; the
`process_directory` walk (each added document a `docAdded` event); the
`indexed == 0` early informational return; `commit` (the `committed`
event); the empty-keyword check; query parsing (the abstract `parse`
parameter); collection of the top 10 scored documents (the abstract
relevance oracle `score`, `none` meaning the document does not match);
and the rendering of the hit report. -/
def searchPipeline (root : Node) (directory keyword : String)
    (parse : String → Except String Unit) (score : Doc → Option Rat) : PipelineOut :=
  let ev0 := [Event.indexCreated, Event.writerCreated]
  if rootIsDir root = false then
    ⟨.error ("The specified path '" ++ directory ++ "' is not a directory"), ev0⟩
  else
    let walked := walkRoot directory root
    let st := walked.1
    let ev1 := ev0 ++ st.docs.map (fun d => Event.docAdded d.path)
    match walked.2 with
    | some e => ⟨.error e, ev1⟩
    | none =>
      if st.indexed = 0 then
        ⟨.ok (noIndexMessage directory st.found st.skipped), ev1⟩
      else
        let ev2 := ev1 ++ [Event.committed]
        if trimIsEmpty keyword then
          ⟨.error "Search keyword is empty. Please enter a valid keyword.", ev2⟩
        else
          match parse keyword with
          | .error e => ⟨.error ("Query parse error: " ++ e), ev2⟩
          | .ok _ =>
            let scored := st.docs.filterMap (fun d => (score d).map (fun s => (s, d)))
            let top := topDocsWithLimit 10 scored
            let resultStr := String.join (top.map hitLine)
            if resultStr.isEmpty then
              ⟨.ok (noResultsMessage keyword st.indexed), ev2⟩
            else
              ⟨.ok ("Search results (" ++ toString top.length ++ " hits):\n" ++ resultStr),
               ev2⟩

/-- A nonempty byte list has a nonempty 8192-byte sample. -/
theorem sampleOf_ne_nil {bytes : List Nat} (h : bytes ≠ []) : sampleOf bytes ≠ [] := by
  cases bytes with
  | nil => exact absurd rfl h
  | cons b bs => simp [sampleOf]

/-- C5: any NUL byte in the sampled prefix forces the binary verdict,
whatever the file's extension is. -/
theorem classifier_binary_on_nul_byte (ext : Option String) (bytes : List Nat)
    (h : 0 ∈ sampleOf bytes) : is_text_file ext (some bytes) = false := by
  have hany : (sampleOf bytes).any (fun b => b == 0) = true := by
    rw [List.any_eq_true]
    exact ⟨0, h, by simp⟩
  unfold is_text_file
  cases hd : extDenylisted ext with
  | true => simp
  | false =>
    cases hbe : bytes.isEmpty with
    | true => simp [hbe]
    | false => simp [hbe, hany]

/-- Witness for C5: a one-byte file holding only `0x00` is classified
binary. -/
theorem classifier_binary_on_nul_byte_w :
    is_text_file none (some [0]) = false :=
  classifier_binary_on_nul_byte none [0] (by decide)

/-- C10: a file whose extension lowercases (ASCII) into the denylist is
classified binary for every possible byte-read outcome, the read never
even being consulted. -/
theorem classifier_denylist_case_insensitive (e : String) (readRes : Option (List Nat))
    (h : toLowerAscii e ∈ binary_extensions) :
    is_text_file (some e) readRes = false := by
  have hd : extDenylisted (some e) = true := by
    unfold extDenylisted
    exact List.elem_eq_true_of_mem h
  unfold is_text_file
  simp [hd]

/-- Witness for C10: `PNG` (upper case) with arbitrary non-NUL ASCII bytes
is classified binary. -/
theorem classifier_denylist_case_insensitive_w :
    is_text_file (some "PNG") (some [104, 105]) = false :=
  classifier_denylist_case_insensitive "PNG" (some [104, 105]) (by decide)

/-- C4 (amended): a non-empty file whose extension is not denylisted, whose
sampled prefix has no NUL byte, control-character ratio at most 0.3 and is
valid UTF-8, is classified text. -/
theorem classifier_text_on_clean_utf8 (ext : Option String) (bytes : List Nat)
    (hext : extDenylisted ext = false) (hne : bytes ≠ [])
    (hnul : (sampleOf bytes).any (fun b => b == 0) = false)
    (hctl : 10 * controlCount (sampleOf bytes) ≤ 3 * (sampleOf bytes).length)
    (hutf : utf8Valid (sampleOf bytes) = true) :
    is_text_file ext (some bytes) = true := by
  have hbe : bytes.isEmpty = false := by
    simp [List.isEmpty_iff, hne]
  have hc : ¬ (10 * controlCount (sampleOf bytes) > 3 * (sampleOf bytes).length) := by
    omega
  unfold is_text_file
  simp [hext, hbe, hnul, hc, hutf]

/-- Witness for C4 (amended): the five ASCII bytes of `hello` in a `.txt`
file are classified text. -/
theorem classifier_text_on_clean_utf8_w :
    is_text_file (some "txt") (some [104, 101, 108, 108, 111]) = true :=
  classifier_text_on_clean_utf8 (some "txt") [104, 101, 108, 108, 111]
    (by decide) (by decide) (by decide) (by decide) (by decide)

/-- Counterexample for C4 as stated: the same five clean ASCII bytes of
`hello` — valid UTF-8, no NUL, control ratio 0 — are classified binary
when the file's extension is `pdf`, because the denylist check runs first. -/
theorem classifier_text_claim_fails_on_denylisted_extension :
    utf8Valid (sampleOf [104, 101, 108, 108, 111]) = true
    ∧ (sampleOf [104, 101, 108, 108, 111]).any (fun b => b == 0) = false
    ∧ 10 * controlCount (sampleOf [104, 101, 108, 108, 111])
        ≤ 3 * (sampleOf [104, 101, 108, 108, 111]).length
    ∧ is_text_file (some "pdf") (some [104, 101, 108, 108, 111]) = false := by
  refine ⟨by decide, by decide, by decide, by decide⟩

mutual
/-- Walk invariant, entry step: if every document added so far is
non-blank, the same holds after processing one more directory entry. -/
theorem processEntry_goodDocs (dirPath : String) (n : Node) (st : WalkState)
    (h : ∀ d ∈ st.docs, trimIsEmpty d.content = false) :
    ∀ d ∈ (processEntry dirPath n st).1.docs, trimIsEmpty d.content = false := by
  cases n with
  | badEntry msg => simpa [processEntry] using h
  | badDir name msg => simpa [processEntry] using h
  | other name => simpa [processEntry] using h
  | dir name entries => exact processList_goodDocs _ entries st h
  | file name ext bytes content =>
      by_cases htxt : is_text_file ext bytes = true
      · cases content with
        | some c =>
            by_cases hb : trimIsEmpty c = true
            · simpa [processEntry, htxt, hb] using h
            · intro d hd
              simp [processEntry, htxt, hb] at hd
              rcases hd with hmem | rfl
              · exact h d hmem
              · simpa using hb
        | none => simpa [processEntry, htxt] using h
      · simpa [processEntry, htxt] using h

/-- Walk invariant, listing step: processing a whole directory listing
preserves non-blankness of every added document. -/
theorem processList_goodDocs (dirPath : String) (ns : NodeList) (st : WalkState)
    (h : ∀ d ∈ st.docs, trimIsEmpty d.content = false) :
    ∀ d ∈ (processList dirPath ns st).1.docs, trimIsEmpty d.content = false := by
  cases ns with
  | nil => simpa [processList] using h
  | cons n rest =>
      have h1 := processEntry_goodDocs dirPath n st h
      simp only [processList]
      cases hp : processEntry dirPath n st with
      | mk st2 err =>
        rw [hp] at h1
        cases err with
        | none => exact processList_goodDocs dirPath rest st2 h1
        | some e => simpa using h1
end

/-- C7: every document the walk hands to the index writer has content that
is non-empty after trimming whitespace; a blank file is never indexed. -/
theorem indexed_documents_nonblank (dirPath : String) (root : Node) :
    ∀ d ∈ (walkRoot dirPath root).1.docs, trimIsEmpty d.content = false := by
  cases root with
  | dir name entries =>
      exact processList_goodDocs dirPath entries ⟨[], 0, 0, 0⟩ (by simp)
  | file name ext bytes content => simp [walkRoot]
  | badDir name msg => simp [walkRoot]
  | badEntry msg => simp [walkRoot]
  | other name => simp [walkRoot]

/-- Witness for C7: the one document indexed from a directory holding a
single `hello` file is non-blank. -/
theorem indexed_documents_nonblank_w :
    trimIsEmpty (Doc.mk "/d/a.txt" "hello").content = false :=
  indexed_documents_nonblank "/d"
    (Node.dir "d"
      (NodeList.cons
        (Node.file "a.txt" (some "txt") (some [104, 101, 108, 108, 111]) (some "hello"))
        NodeList.nil))
    (Doc.mk "/d/a.txt" "hello") (by decide)

mutual
/-- A node free of traversal failures: it is not a failed directory entry,
not a directory whose `fs::read_dir` fails, and every directory beneath it
is likewise clean. File-level problems (read errors, blank content,
binary verdicts) are allowed. -/
def nodeTraversalOk : Node → Bool
  | .badEntry _ => false
  | .badDir _ _ => false
  | .dir _ entries => listTraversalOk entries
  | .file _ _ _ _ => true
  | .other _ => true

/-- A directory listing free of traversal failures. -/
def listTraversalOk : NodeList → Bool
  | .nil => true
  | .cons n rest => nodeTraversalOk n && listTraversalOk rest
end

mutual
/-- On a traversal-clean entry, `processEntry` never propagates an error,
whatever read failures or blank contents its files have. -/
theorem processEntry_ok_of_traversalOk (dirPath : String) (n : Node) (st : WalkState)
    (h : nodeTraversalOk n = true) : (processEntry dirPath n st).2 = none := by
  cases n with
  | badEntry msg => simp [nodeTraversalOk] at h
  | badDir name msg => simp [nodeTraversalOk] at h
  | other name => simp [processEntry]
  | dir name entries =>
      exact processList_ok_of_traversalOk _ entries st (by simpa [nodeTraversalOk] using h)
  | file name ext bytes content =>
      by_cases htxt : is_text_file ext bytes = true
      · cases content with
        | some c =>
            by_cases hb : trimIsEmpty c = true
            · simp [processEntry, htxt, hb]
            · simp [processEntry, htxt, hb]
        | none => simp [processEntry, htxt]
      · simp [processEntry, htxt]

/-- On a traversal-clean listing, `processList` never propagates an error. -/
theorem processList_ok_of_traversalOk (dirPath : String) (ns : NodeList) (st : WalkState)
    (h : listTraversalOk ns = true) : (processList dirPath ns st).2 = none := by
  cases ns with
  | nil => simp [processList]
  | cons n rest =>
      rw [listTraversalOk, Bool.and_eq_true] at h
      have h1 := processEntry_ok_of_traversalOk dirPath n st h.1
      simp only [processList]
      cases hp : processEntry dirPath n st with
      | mk st2 err =>
        rw [hp] at h1
        cases err with
        | none => exact processList_ok_of_traversalOk dirPath rest st2 h.2
        | some e => simp at h1
end

/-- C2 (amended): per-file problems are swallowed — a file whose
`read_to_string` fails, or whose content is blank, only bumps the found
and skipped counters and adds nothing, and a walk over a tree with no
traversal failures never propagates an error no matter which per-file
problems occur — whereas a directory-read or entry-read failure does
abort the walk (shown separately by the counterexample). -/
theorem walk_swallows_per_file_problems :
    (∀ (dirPath : String) (ns : NodeList) (st : WalkState),
        listTraversalOk ns = true → (processList dirPath ns st).2 = none)
    ∧ (∀ (dirPath name : String) (ext : Option String) (bytes : Option (List Nat))
          (st : WalkState),
        processEntry dirPath (Node.file name ext bytes none) st
          = ({ docs := st.docs, indexed := st.indexed, found := st.found + 1,
               skipped := st.skipped + 1 }, none))
    ∧ (∀ (dirPath name : String) (ext : Option String) (bytes : Option (List Nat))
          (c : String) (st : WalkState), trimIsEmpty c = true →
        processEntry dirPath (Node.file name ext bytes (some c)) st
          = ({ docs := st.docs, indexed := st.indexed, found := st.found + 1,
               skipped := st.skipped + 1 }, none)) := by
  refine ⟨processList_ok_of_traversalOk, ?_, ?_⟩
  · intro dirPath name ext bytes st
    by_cases htxt : is_text_file ext bytes = true
    · simp [processEntry, htxt]
    · simp [processEntry, htxt]
  · intro dirPath name ext bytes c st hb
    by_cases htxt : is_text_file ext bytes = true
    · simp [processEntry, htxt, hb]
    · simp [processEntry, htxt, hb]

/-- Witness for C2 (amended): a listing with one unreadable file and one
blank file finishes without error, counting both files as skipped. -/
theorem walk_swallows_per_file_problems_w :
    (processList "/r"
        (NodeList.cons (Node.file "broken.txt" (some "txt") (some [104]) none)
          (NodeList.cons (Node.file "blank.txt" (some "txt") (some [32]) (some " "))
            NodeList.nil))
        ⟨[], 0, 0, 0⟩).2 = none
    ∧ processEntry "/r" (Node.file "broken.txt" (some "txt") (some [104]) none) ⟨[], 0, 0, 0⟩
        = (⟨[], 0, 1, 1⟩, none)
    ∧ processEntry "/r" (Node.file "blank.txt" (some "txt") (some [32]) (some " ")) ⟨[], 0, 0, 0⟩
        = (⟨[], 0, 1, 1⟩, none) :=
  ⟨walk_swallows_per_file_problems.1 "/r" _ ⟨[], 0, 0, 0⟩ (by decide),
   walk_swallows_per_file_problems.2.1 "/r" "broken.txt" (some "txt") (some [104]) ⟨[], 0, 0, 0⟩,
   walk_swallows_per_file_problems.2.2 "/r" "blank.txt" (some "txt") (some [32]) " "
     ⟨[], 0, 0, 0⟩ (by decide)⟩

/-- Counterexample for C2 as stated: a directory entry whose
`Result<DirEntry>` is an error is not skipped-and-counted — the walk, and
with it the whole request, aborts with an error. -/
theorem walk_aborts_on_entry_error :
    (searchPipeline
        (Node.dir "r" (NodeList.cons (Node.badEntry "permission denied") NodeList.nil))
        "/r" "kw" (fun _ => Except.ok ()) (fun _ => none)).result
      = Except.error "Entry read error: permission denied" := rfl

/-- C6: a walk that completes with zero indexed documents makes `search`
return success with the informational message carrying the found and
skipped counts and the binary-extension denylist, whatever the keyword. -/
theorem zero_indexed_informational (root : Node) (directory keyword : String)
    (parse : String → Except String Unit) (score : Doc → Option Rat) (st : WalkState)
    (hdir : rootIsDir root = true)
    (hwalk : walkRoot directory root = (st, none))
    (hzero : st.indexed = 0) :
    (searchPipeline root directory keyword parse score).result
      = Except.ok (noIndexMessage directory st.found st.skipped) := by
  simp [searchPipeline, hdir, hwalk, hzero]

/-- Witness for C6: a directory holding only a `.png` file indexes nothing
and yields the informational result with found = 1, skipped = 1. -/
theorem zero_indexed_informational_w :
    (searchPipeline
        (Node.dir "pics"
          (NodeList.cons (Node.file "image.png" (some "png") (some [137, 80]) none)
            NodeList.nil))
        "/pics" "cat" (fun _ => Except.ok ()) (fun _ => none)).result
      = Except.ok (noIndexMessage "/pics" 1 1) :=
  zero_indexed_informational
    (Node.dir "pics"
      (NodeList.cons (Node.file "image.png" (some "png") (some [137, 80]) none)
        NodeList.nil))
    "/pics" "cat" (fun _ => Except.ok ()) (fun _ => none)
    ⟨[], 0, 1, 1⟩ rfl (by decide) rfl

/-- C1 (amended): the empty-keyword rejection exists but runs late — only
when at least one document was indexed (after the index has been built and
committed, before query parsing) does a blank keyword produce the
empty-keyword error; a walk that indexes nothing returns the informational
no-indexable-files success instead, whatever the keyword. -/
theorem empty_keyword_check (root : Node) (directory keyword : String)
    (parse : String → Except String Unit) (score : Doc → Option Rat) (st : WalkState)
    (hdir : rootIsDir root = true)
    (hwalk : walkRoot directory root = (st, none)) :
    (st.indexed ≠ 0 → trimIsEmpty keyword = true →
        (searchPipeline root directory keyword parse score).result
          = Except.error "Search keyword is empty. Please enter a valid keyword.")
    ∧ (st.indexed = 0 →
        (searchPipeline root directory keyword parse score).result
          = Except.ok (noIndexMessage directory st.found st.skipped)) := by
  constructor
  · intro hnz hkw
    simp [searchPipeline, hdir, hwalk, hnz, hkw]
  · intro hz
    simp [searchPipeline, hdir, hwalk, hz]

/-- Witness for C1 (amended): with one indexed document, a whitespace-only
keyword is rejected with the empty-keyword error. -/
theorem empty_keyword_check_w :
    (searchPipeline
        (Node.dir "d"
          (NodeList.cons
            (Node.file "a.txt" (some "txt") (some [104, 101, 108, 108, 111]) (some "hello"))
            NodeList.nil))
        "/d" "   " (fun _ => Except.ok ()) (fun _ => none)).result
      = Except.error "Search keyword is empty. Please enter a valid keyword." :=
  (empty_keyword_check
      (Node.dir "d"
        (NodeList.cons
          (Node.file "a.txt" (some "txt") (some [104, 101, 108, 108, 111]) (some "hello"))
          NodeList.nil))
      "/d" "   " (fun _ => Except.ok ()) (fun _ => none)
      ⟨[Doc.mk "/d/a.txt" "hello"], 1, 1, 0⟩ rfl (by decide)).1 (by decide) (by decide)

/-- Counterexample for C1 as stated: over an empty corpus the empty keyword
is not rejected at all — the walk's zero-indexed informational success is
returned first, so the rejection is not independent of corpus size. -/
theorem empty_keyword_not_rejected_on_empty_corpus :
    (searchPipeline (Node.dir "d" NodeList.nil) "/d" ""
        (fun _ => Except.ok ()) (fun _ => none)).result
      = Except.ok (noIndexMessage "/d" 0 0)
    ∧ (searchPipeline (Node.dir "d" NodeList.nil) "/d" ""
        (fun _ => Except.ok ()) (fun _ => none)).result
      ≠ Except.error "Search keyword is empty. Please enter a valid keyword." := by
  refine ⟨rfl, fun h => ?_⟩
  rw [show (searchPipeline (Node.dir "d" NodeList.nil) "/d" ""
      (fun _ => Except.ok ()) (fun _ => none)).result
      = Except.ok (noIndexMessage "/d" 0 0) from rfl] at h
  exact Except.noConfusion h

/-- C3 (amended): a root that is not a directory makes `search` fail with
the not-a-directory error naming the offending path, and no document is
ever added nor a commit performed — though the empty in-RAM index and its
writer are created before the validation (the counterexample shows the
creation event). -/
theorem not_a_directory_rejected (root : Node) (directory keyword : String)
    (parse : String → Except String Unit) (score : Doc → Option Rat)
    (h : rootIsDir root = false) :
    (searchPipeline root directory keyword parse score).result
      = Except.error ("The specified path '" ++ directory ++ "' is not a directory")
    ∧ ∀ e ∈ (searchPipeline root directory keyword parse score).events,
        (∀ p, e ≠ Event.docAdded p) ∧ e ≠ Event.committed := by
  constructor
  · simp [searchPipeline, h]
  · intro e he
    simp [searchPipeline, h] at he
    rcases he with rfl | rfl
    · exact ⟨fun p => by simp, by simp⟩
    · exact ⟨fun p => by simp, by simp⟩

/-- Witness for C3 (amended): a regular file as root is rejected with the
error naming its path, with no document-addition and no commit event. -/
theorem not_a_directory_rejected_w :
    (searchPipeline (Node.file "f" (some "txt") (some [104]) (some "h"))
        "/tmp/g" "kw" (fun _ => Except.ok ()) (fun _ => none)).result
      = Except.error ("The specified path '" ++ "/tmp/g" ++ "' is not a directory")
    ∧ ∀ e ∈ (searchPipeline (Node.file "f" (some "txt") (some [104]) (some "h"))
          "/tmp/g" "kw" (fun _ => Except.ok ()) (fun _ => none)).events,
        (∀ p, e ≠ Event.docAdded p) ∧ e ≠ Event.committed :=
  not_a_directory_rejected (Node.file "f" (some "txt") (some [104]) (some "h"))
    "/tmp/g" "kw" (fun _ => Except.ok ()) (fun _ => none) rfl

/-- Counterexample for C3 as stated: even for a root that is not a
directory the in-RAM index is created — `Index::create_in_ram` runs before
the `is_dir` validation, so "no index is ever created" fails, though the
request does error with the path-naming message. -/
theorem index_created_before_directory_check :
    (searchPipeline (Node.other "f") "/tmp/f" "kw"
        (fun _ => Except.ok ()) (fun _ => none)).result
      = Except.error "The specified path '/tmp/f' is not a directory"
    ∧ Event.indexCreated ∈ (searchPipeline (Node.other "f") "/tmp/f" "kw"
        (fun _ => Except.ok ()) (fun _ => none)).events :=
  ⟨rfl, by decide⟩

/-- C9: a committed non-empty index queried with a parsable keyword that
matches no document yields success with the message naming the keyword and
the number of indexed documents. -/
theorem zero_hits_success (root : Node) (directory keyword : String)
    (parse : String → Except String Unit) (score : Doc → Option Rat) (st : WalkState)
    (hdir : rootIsDir root = true)
    (hwalk : walkRoot directory root = (st, none))
    (hnz : st.indexed ≠ 0)
    (hkw : trimIsEmpty keyword = false)
    (hparse : parse keyword = Except.ok ())
    (hmiss : ∀ d ∈ st.docs, score d = none) :
    (searchPipeline root directory keyword parse score).result
      = Except.ok (noResultsMessage keyword st.indexed) := by
  have hscored : st.docs.filterMap (fun d => (score d).map (fun s => (s, d))) = [] :=
    List.filterMap_eq_nil_iff.mpr (fun d hd => by rw [hmiss d hd]; rfl)
  simp [searchPipeline, hdir, hwalk, hnz, hkw, hparse, hscored, topDocsWithLimit,
    String.join]
  rw [if_pos (by decide)]

/-- Witness for C9: one indexed document, keyword `zzz` matching nothing:
the result names the keyword and the count of one indexed file. -/
theorem zero_hits_success_w :
    (searchPipeline
        (Node.dir "d"
          (NodeList.cons
            (Node.file "a.txt" (some "txt") (some [104, 101, 108, 108, 111]) (some "hello"))
            NodeList.nil))
        "/d" "zzz" (fun _ => Except.ok ()) (fun _ => none)).result
      = Except.ok (noResultsMessage "zzz" 1) :=
  zero_hits_success
    (Node.dir "d"
      (NodeList.cons
        (Node.file "a.txt" (some "txt") (some [104, 101, 108, 108, 111]) (some "hello"))
        NodeList.nil))
    "/d" "zzz" (fun _ => Except.ok ()) (fun _ => none)
    ⟨[Doc.mk "/d/a.txt" "hello"], 1, 1, 0⟩ rfl (by decide) (by decide) (by decide) rfl
    (fun _ _ => rfl)

/-- A string whose character list is non-empty is not `isEmpty` (its UTF-8
byte size is positive). -/
theorem isEmpty_false_of_data_ne (s : String) (h : s.data ≠ []) : s.isEmpty = false := by
  cases s with
  | mk data =>
    cases data with
    | nil => exact absurd rfl h
    | cons c cs =>
      cases hi : (String.mk (c :: cs)).isEmpty with
      | false => rfl
      | true =>
        simp [String.isEmpty] at hi
        have h2 : String.utf8Len cs + c.utf8Size = 0 := congrArg String.Pos.byteIdx hi
        have h3 := Char.utf8Size_pos c
        omega

/-- Left-folding string concatenation onto a non-empty accumulator stays
non-empty. -/
theorem foldl_append_data_ne (l : List String) (init : String) (h : init.data ≠ []) :
    (l.foldl (fun r s => r ++ s) init).data ≠ [] := by
  induction l generalizing init with
  | nil => simpa using h
  | cons s rest ih =>
      simp only [List.foldl]
      apply ih
      simp [String.data_append, h]

/-- The joined hit report of a non-empty hit list is a non-empty string
(every line starts with `Hit: `). -/
theorem join_map_hitLine_isEmpty (l : List (Rat × Doc)) (h : l ≠ []) :
    (String.join (l.map hitLine)).isEmpty = false := by
  cases l with
  | nil => exact absurd rfl h
  | cons p rest =>
      apply isEmpty_false_of_data_ne
      simp only [List.map, String.join, List.foldl]
      apply foldl_append_data_ne
      simp [hitLine, String.data_append]

/-- The collector returns at most `limit` hits. -/
theorem topDocsWithLimit_length_le (limit : Nat) (scored : List (Rat × Doc)) :
    (topDocsWithLimit limit scored).length ≤ limit := by
  simp [topDocsWithLimit]

/-- The collector's hits are in descending score order. -/
theorem topDocsWithLimit_pairwise (limit : Nat) (scored : List (Rat × Doc)) :
    List.Pairwise scoreGE (topDocsWithLimit limit scored) :=
  (List.sorted_insertionSort scoreGE scored).sublist
    (List.take_sublist limit (List.insertionSort scoreGE scored))

/-- C8: on a committed index, a parsable non-blank keyword with at least
one matching document yields at most 10 hits in descending score order,
rendered one `Hit: path (Score: x.xx)` line per hit under a header
carrying the hit count. -/
theorem hits_report_capped_sorted (root : Node) (directory keyword : String)
    (parse : String → Except String Unit) (score : Doc → Option Rat) (st : WalkState)
    (hdir : rootIsDir root = true)
    (hwalk : walkRoot directory root = (st, none))
    (hnz : st.indexed ≠ 0)
    (hkw : trimIsEmpty keyword = false)
    (hparse : parse keyword = Except.ok ())
    (hne : topDocsWithLimit 10
        (st.docs.filterMap (fun d => (score d).map (fun s => (s, d)))) ≠ []) :
    (topDocsWithLimit 10 (st.docs.filterMap (fun d => (score d).map (fun s => (s, d))))).length
      ≤ 10
    ∧ List.Pairwise scoreGE
        (topDocsWithLimit 10 (st.docs.filterMap (fun d => (score d).map (fun s => (s, d)))))
    ∧ (searchPipeline root directory keyword parse score).result
        = Except.ok ("Search results ("
            ++ toString (topDocsWithLimit 10
                (st.docs.filterMap (fun d => (score d).map (fun s => (s, d))))).length
            ++ " hits):\n"
            ++ String.join ((topDocsWithLimit 10
                (st.docs.filterMap (fun d => (score d).map (fun s => (s, d))))).map hitLine)) := by
  refine ⟨topDocsWithLimit_length_le 10 _, topDocsWithLimit_pairwise 10 _, ?_⟩
  have hj := join_map_hitLine_isEmpty _ hne
  simp [searchPipeline, hdir, hwalk, hnz, hkw, hparse, hj]

/-- Witness for C8: one matching document scores 1 and is rendered as a
one-hit report with a two-decimal score. -/
theorem hits_report_capped_sorted_w :
    (topDocsWithLimit 10
        ((WalkState.mk [Doc.mk "/d/a.txt" "hello"] 1 1 0).docs.filterMap
          (fun d => ((fun _ => some (1 : Rat)) d).map (fun s => (s, d))))).length ≤ 10
    ∧ List.Pairwise scoreGE
        (topDocsWithLimit 10
          ((WalkState.mk [Doc.mk "/d/a.txt" "hello"] 1 1 0).docs.filterMap
            (fun d => ((fun _ => some (1 : Rat)) d).map (fun s => (s, d)))))
    ∧ (searchPipeline
          (Node.dir "d"
            (NodeList.cons
              (Node.file "a.txt" (some "txt") (some [104, 101, 108, 108, 111]) (some "hello"))
              NodeList.nil))
          "/d" "hello" (fun _ => Except.ok ()) (fun _ => some (1 : Rat))).result
        = Except.ok ("Search results ("
            ++ toString (topDocsWithLimit 10
                ((WalkState.mk [Doc.mk "/d/a.txt" "hello"] 1 1 0).docs.filterMap
                  (fun d => ((fun _ => some (1 : Rat)) d).map (fun s => (s, d))))).length
            ++ " hits):\n"
            ++ String.join ((topDocsWithLimit 10
                ((WalkState.mk [Doc.mk "/d/a.txt" "hello"] 1 1 0).docs.filterMap
                  (fun d => ((fun _ => some (1 : Rat)) d).map (fun s => (s, d))))).map hitLine)) :=
  hits_report_capped_sorted
    (Node.dir "d"
      (NodeList.cons
        (Node.file "a.txt" (some "txt") (some [104, 101, 108, 108, 111]) (some "hello"))
        NodeList.nil))
    "/d" "hello" (fun _ => Except.ok ()) (fun _ => some (1 : Rat))
    (WalkState.mk [Doc.mk "/d/a.txt" "hello"] 1 1 0) rfl (by decide) (by decide) (by decide)
    rfl (by decide)
